import Mathlib

/-!
Verification of the Timeline Video Compositor of the YouTube-Video-Summarizer
repository, shallowly embedded in Lean 4.

The embedding mirrors `src/services/videoGenerationService.ts` and
`src/services/animationService.ts`.  JavaScript numbers are modelled as exact
rationals (`ℚ`) wherever the source only adds, multiplies, divides and
compares; the transcendental expressions (`Math.sin`, `Math.pow` with a real
exponent) are modelled over `ℝ`.  Canvas painting is modelled by returning the
draw directives (image, position, scale, alpha) that the source would issue,
instead of mutating a drawing context.  The ambient wall clock (`Date.now()`)
is passed explicitly, in milliseconds, to the functions of the translated
code that can observe it.
-/

/-! ## Data model (`youtubeService.ts`, `videoGenerationService.ts`) -/

/-- Sentiment enum of `VideoSummaryData` (`youtubeService.ts`). -/
inductive Sentiment
  | positive
  | neutral
  | negative
deriving DecidableEq, Repr

/-- Difficulty enum of `VideoSummaryData` (`youtubeService.ts`). -/
inductive Difficulty
  | beginner
  | intermediate
  | advanced
deriving DecidableEq, Repr

/-- `YouTubeVideoData` (`youtubeService.ts`): the video descriptor.  `duration`
is in seconds. -/
structure YouTubeVideoData where
  id : String
  title : String
  description : String
  duration : ℚ
  channelTitle : String
  thumbnail : String
  publishedAt : String
  viewCount : ℕ
  tags : List String
deriving DecidableEq, Repr

/-- `VideoSummaryData` (`youtubeService.ts`): the structured summary. -/
structure VideoSummaryData where
  summary : String
  keyPoints : List String
  mainTopics : List String
  sentiment : Sentiment
  difficulty : Difficulty
deriving DecidableEq, Repr

/-- Segment kind (`VideoSegment.type` in `videoGenerationService.ts`). -/
inductive SegmentType
  | intro
  | keypoint
  | highlight
  | conclusion
deriving DecidableEq, Repr

/-- Visual element kind (`VisualElement.type`). -/
inductive VisualElementType
  | text
  | image
  | chart
  | progressBar
  | highlight
  | overlay
deriving DecidableEq, Repr

/-- Text animation kind (`TextAnimation.type`). -/
inductive TextAnimationType
  | typewriter
  | fadeIn
  | slideIn
  | scaleIn
  | glitch
  | wave
deriving DecidableEq, Repr

/-- Transition kind (`TransitionEffect.type`). -/
inductive TransitionType
  | crossfade
  | slide
  | zoom
  | wipe
  | morph
  | particle
deriving DecidableEq, Repr

/-- Transition direction (`TransitionEffect.direction`). -/
inductive TransitionDirection
  | left
  | right
  | up
  | down
  | center
deriving DecidableEq, Repr

/-- `TextAnimation` (`videoGenerationService.ts`). -/
structure TextAnimation where
  type : TextAnimationType
  duration : ℚ
  delay : ℚ
  stagger : Option ℚ
deriving DecidableEq, Repr

/-- `TransitionEffect` (`videoGenerationService.ts`). -/
structure TransitionEffect where
  type : TransitionType
  duration : ℚ
  direction : Option TransitionDirection
  easing : String
deriving DecidableEq, Repr

/-- `VisualElement.position`: a rectangle in percentages of the canvas. -/
structure ElementPosition where
  x : ℚ
  y : ℚ
  width : ℚ
  height : ℚ
deriving DecidableEq, Repr

/-- `VisualElement.style`. -/
structure ElementStyle where
  font : Option String
  fillStyle : Option String
  strokeStyle : Option String
  lineWidth : Option ℚ
  textAlign : Option String
deriving DecidableEq, Repr

/-- The text-shaped `content` payload the planner builds for `type: 'text'`
elements (fields `title`, `subtitle`, `badge`, `content`, `topic`, `cta` of
the object literals in `createTimedVideoSegments`).  The source field
`content` is named `body` here because the payload itself is already called
content. -/
structure TextContent where
  title : Option String
  subtitle : Option String
  badge : Option String
  body : Option String
  topic : Option String
  cta : Option String
deriving DecidableEq, Repr

/-- The `content` payload the planner builds for `type: 'progress'` elements.
`timeRemaining` is `Math.round(totalDuration - endTime)`, an integer. -/
structure ProgressContent where
  current : ℕ
  total : ℕ
  percentage : ℚ
  timeRemaining : ℤ
deriving DecidableEq, Repr

/-- The untyped `content: any` of `VisualElement`, restricted to the two
shapes the planner actually constructs. -/
inductive VisualElementContent
  | text (tc : TextContent)
  | progressData (pc : ProgressContent)
deriving DecidableEq, Repr

/-- `VisualElement` (`videoGenerationService.ts`). -/
structure VisualElement where
  type : VisualElementType
  content : VisualElementContent
  animation : TextAnimation
  position : ElementPosition
  style : Option ElementStyle
deriving DecidableEq, Repr

/-- `VideoSegment.content` (`videoGenerationService.ts`). -/
structure SegmentContent where
  text : String
  voiceText : String
  visualElements : List VisualElement
  originalVideoFrame : Option String
  transitions : List TransitionEffect
deriving DecidableEq, Repr

/-- `VideoSegment` (`videoGenerationService.ts`).  The source field `type` is
named `stype` to leave `type` free for the element records above. -/
structure Segment where
  startTime : ℚ
  endTime : ℚ
  stype : SegmentType
  content : SegmentContent
deriving DecidableEq, Repr

namespace VideoGenerationService

/-! ## Segment Planner (`createTimedVideoSegments`, lines 346-492) -/

/-- The intro segment pushed first by `createTimedVideoSegments`
(lines 362-393). -/
def introSegment (originalVideoFrames : List String) (videoData : YouTubeVideoData)
    (totalDuration introDuration : ℚ) : Segment :=
  { startTime := 0
    endTime := introDuration
    stype := .intro
    content :=
      { text := videoData.title
        voiceText := "Welcome to this AI-powered summary of \"" ++ videoData.title
          ++ "\" by " ++ videoData.channelTitle ++ "."
        visualElements :=
          [{ type := .text
             content := .text
               { title := some videoData.title
                 subtitle := some ("by " ++ videoData.channelTitle)
                 badge := some (toString (Int.floor (videoData.duration / 60))
                   ++ "min → " ++ toString (round totalDuration) ++ "s AI Summary")
                 body := none
                 topic := none
                 cta := none }
             animation := { type := .slideIn, duration := 2, delay := 0.5, stagger := none }
             position := { x := 10, y := 20, width := 80, height := 60 }
             style := some
               { font := some "bold 64px Inter, sans-serif"
                 fillStyle := some "#ffffff"
                 strokeStyle := some "#000000"
                 lineWidth := some 2
                 textAlign := some "left" } }]
        originalVideoFrame := originalVideoFrames.get? 0
        transitions := [{ type := .crossfade, duration := 1.5, direction := none,
                          easing := "easeInOut" }] } }

/-- The body of the `aiSummary.keyPoints.forEach` loop of
`createTimedVideoSegments` (lines 396-454), pushing one key-point segment for
the key point `point` at position `index`. -/
def mkKeyPointSegment (originalVideoFrames : List String) (aiSummary : VideoSummaryData)
    (totalDuration introDuration keyPointDuration : ℚ)
    (index : ℕ) (point : String) : Segment :=
  let startTime := introDuration + index * keyPointDuration
  let endTime := startTime + keyPointDuration
  let frameIndex := (index + 1) % originalVideoFrames.length
  { startTime := startTime
    endTime := endTime
    stype := .keypoint
    content :=
      { text := point
        voiceText := point
        originalVideoFrame := originalVideoFrames.get? frameIndex
        transitions :=
          [{ type := if index % 2 = 0 then .slide else .zoom
             duration := 1
             direction := some (if index % 4 = 0 then .left
               else if index % 4 = 1 then .right
               else if index % 4 = 2 then .up else .down)
             easing := "easeInOut" }]
        visualElements :=
          [{ type := .text
             content := .text
               { title := some ("Key Insight " ++ toString (index + 1))
                 subtitle := none
                 badge := none
                 body := some point
                 topic := aiSummary.mainTopics.get? (index % aiSummary.mainTopics.length)
                 cta := none }
             animation :=
               { type := if index % 3 = 0 then .typewriter
                   else if index % 3 = 1 then .wave else .scaleIn
                 duration := 1.5
                 delay := 0.5
                 stagger := some 0.05 }
             position := { x := 5, y := 25, width := 90, height := 50 }
             style := some
               { font := some "bold 48px Inter, sans-serif"
                 fillStyle := some "#ffffff"
                 strokeStyle := some "#000000"
                 lineWidth := some 3
                 textAlign := some "left" } },
           { type := .progressBar
             content := .progressData
               { current := index + 1
                 total := aiSummary.keyPoints.length
                 percentage := ((index : ℚ) + 1) / (aiSummary.keyPoints.length : ℚ) * 100
                 timeRemaining := round (totalDuration - endTime) }
             animation := { type := .slideIn, duration := 0.8, delay := 0.3, stagger := none }
             position := { x := 10, y := 80, width := 80, height := 6 }
             style := none }] } }

/-- The conclusion segment pushed last by `createTimedVideoSegments`
(lines 456-489). -/
def conclusionSegment (originalVideoFrames : List String) (aiSummary : VideoSummaryData)
    (totalDuration conclusionDuration : ℚ) : Segment :=
  let conclusionStart := totalDuration - conclusionDuration
  { startTime := conclusionStart
    endTime := totalDuration
    stype := .conclusion
    content :=
      { text := "Summary Complete"
        voiceText := "That covers the main insights. The original video goes into much more detail, so I recommend watching the full version. Thanks for watching this AI summary!"
        originalVideoFrame := originalVideoFrames.get? (originalVideoFrames.length - 1)
        transitions := [{ type := .particle, duration := 2, direction := none,
                          easing := "easeOut" }]
        visualElements :=
          [{ type := .text
             content := .text
               { title := some "Summary Complete!"
                 subtitle := some (toString aiSummary.keyPoints.length ++ " key insights covered")
                 badge := none
                 body := none
                 topic := none
                 cta := some "Watch the full video for complete details" }
             animation := { type := .glitch, duration := 2, delay := 0, stagger := none }
             position := { x := 10, y := 25, width := 80, height := 50 }
             style := some
               { font := some "bold 72px Inter, sans-serif"
                 fillStyle := some "#22c55e"
                 strokeStyle := some "#000000"
                 lineWidth := some 3
                 textAlign := some "center" } }]} }

/-- `createTimedVideoSegments` (lines 346-492): the Segment Planner.  The
instance field `this.originalVideoFrames` is passed explicitly.  Note that the
source performs no validation of `totalDuration` and never throws: the
function is total. -/
def createTimedVideoSegments (originalVideoFrames : List String)
    (videoData : YouTubeVideoData) (aiSummary : VideoSummaryData)
    (totalDuration : ℚ) : List Segment :=
  let introDuration := min 8 (totalDuration * 0.15)
  let conclusionDuration := min 8 (totalDuration * 0.15)
  let keyPointsTotalDuration := totalDuration - introDuration - conclusionDuration
  let keyPointDuration := keyPointsTotalDuration / (aiSummary.keyPoints.length : ℚ)
  introSegment originalVideoFrames videoData totalDuration introDuration
    :: (aiSummary.keyPoints.enum.map fun ip =>
          mkKeyPointSegment originalVideoFrames aiSummary totalDuration introDuration
            keyPointDuration ip.1 ip.2)
    ++ [conclusionSegment originalVideoFrames aiSummary totalDuration conclusionDuration]

end VideoGenerationService

/-! ## Draw directives

Canvas side effects are modelled as values: a draw of an image with the
transform the source sets up (`translate (tx,ty); scale s; translate
(tx2,ty2); drawImage (x,y,width,height)`) and the global alpha in force. -/

structure Bounds where
  x : ℚ
  y : ℚ
  width : ℚ
  height : ℚ
deriving DecidableEq, Repr

structure ImageDraw where
  image : String
  alpha : ℚ := 1
  scale : ℚ := 1
  tx : ℚ := 0
  ty : ℚ := 0
  tx2 : ℚ := 0
  ty2 : ℚ := 0
  x : ℚ
  y : ℚ
  width : ℚ
  height : ℚ
deriving DecidableEq, Repr

namespace VideoGenerationService

/-! ## Frame Renderer helpers (`videoGenerationService.ts`) -/

/-- `easeInOut` (lines 790-792), the private easing of
`VideoGenerationService`. -/
def easeInOut (t : ℚ) : ℚ :=
  if t < 0.5 then 2 * t * t else 1 - (-2 * t + 2) ^ 2 / 2

/-- `createImageTransition` (lines 718-777).  Its `switch` handles only
`crossfade`, `slide` and `zoom`; any other transition type draws nothing. -/
def createImageTransition (fromImage toImage : Option String)
    (transition : TransitionEffect) (progress : ℚ) (bounds : Bounds) :
    List ImageDraw :=
  let easedProgress := easeInOut progress
  match transition.type with
  | .crossfade =>
      (match fromImage with
       | some img => [{ image := img, alpha := 1 - easedProgress,
                        x := bounds.x, y := bounds.y,
                        width := bounds.width, height := bounds.height }]
       | none => [])
      ++ (match toImage with
       | some img => [{ image := img, alpha := easedProgress,
                        x := bounds.x, y := bounds.y,
                        width := bounds.width, height := bounds.height }]
       | none => [])
  | .slide =>
      let slideDistance := bounds.width
      (match fromImage with
       | some img => [{ image := img,
                        x := bounds.x - slideDistance * easedProgress, y := bounds.y,
                        width := bounds.width, height := bounds.height }]
       | none => [])
      ++ (match toImage with
       | some img => [{ image := img,
                        x := bounds.x + slideDistance * (1 - easedProgress), y := bounds.y,
                        width := bounds.width, height := bounds.height }]
       | none => [])
  | .zoom =>
      (match fromImage with
       | some img => [{ image := img, alpha := 1 - easedProgress,
                        scale := 1 + easedProgress * 0.2,
                        tx := bounds.x + bounds.width / 2, ty := bounds.y + bounds.height / 2,
                        tx2 := -(bounds.width / 2), ty2 := -(bounds.height / 2),
                        x := 0, y := 0, width := bounds.width, height := bounds.height }]
       | none => [])
      ++ (match toImage with
       | some img => [{ image := img, alpha := easedProgress,
                        scale := 0.8 + easedProgress * 0.2,
                        tx := bounds.x + bounds.width / 2, ty := bounds.y + bounds.height / 2,
                        tx2 := -(bounds.width / 2), ty2 := -(bounds.height / 2),
                        x := 0, y := 0, width := bounds.width, height := bounds.height }]
       | none => [])
  | _ => []

/-- The vertical offset of `createParallaxEffect` (lines 779-788):
`Math.sin(progress * Math.PI * 2) * intensity * bounds.height`. -/
noncomputable def parallaxOffset (progress intensity height : ℚ) : ℝ :=
  Real.sin ((progress : ℝ) * Real.pi * 2) * (intensity : ℝ) * (height : ℝ)

/-- `getFrameForSegment` (lines 710-715): pick the preloaded image whose URL
index matches the segment's `originalVideoFrame`, falling back to the first
preloaded image. -/
def getFrameForSegment (originalVideoFrames preloadedFrames : List String)
    (segment : Segment) : Option String :=
  match segment.content.originalVideoFrame with
  | none => none
  | some url =>
    if url = "" ∨ preloadedFrames.length = 0 then none
    else
      match originalVideoFrames.findIdx? (fun u => u == url) with
      | some frameIndex =>
          if frameIndex < preloadedFrames.length
          then some (preloadedFrames.getD frameIndex "")
          else some (preloadedFrames.getD 0 "")
      | none => some (preloadedFrames.getD 0 "")

/-- What `renderOriginalVideoBackground` paints before its readability
overlay: a transition blend, a parallax-shifted frame, or the two-stop
gradient fallback of `renderDynamicGradientBackground` (lines 795-801). -/
inductive BackgroundDraw
  | transitionBlend (transition : TransitionEffect) (transitionProgress : ℚ)
      (previousFrame currentFrame : Option String)
  | parallax (image : String) (x : ℚ) (y : ℝ) (width height : ℚ)
  | gradientFallback (stop0 stop1 : String)

/-- `renderOriginalVideoBackground` (lines 666-708).  Returns the background
draw decision together with the alpha of the `rgba(0, 0, 0, 0.4)` readability
overlay painted after it.  Note the transition window is the hardcoded test
`segmentTime < 1`, while the progress passed on is
`segmentTime / transition.duration`. -/
noncomputable def renderOriginalVideoBackground
    (originalVideoFrames preloadedFrames : List String)
    (segment : Segment) (previousSegment : Option Segment)
    (segmentTime segmentProgress : ℚ) (canvasWidth canvasHeight : ℚ) :
    BackgroundDraw × ℚ :=
  let currentFrame := getFrameForSegment originalVideoFrames preloadedFrames segment
  let previousFrame := previousSegment.bind
    (getFrameForSegment originalVideoFrames preloadedFrames)
  let noTransition : BackgroundDraw :=
    match currentFrame with
    | some img => .parallax img 0 ((0 : ℝ) + parallaxOffset segmentProgress 0.05 canvasHeight)
        canvasWidth canvasHeight
    | none => .gradientFallback "#1e40af" "#7c3aed"
  let draw :=
    match previousFrame, segment.content.transitions with
    | some _, transition :: _ =>
        if segmentTime < 1 then
          .transitionBlend transition (segmentTime / transition.duration)
            previousFrame currentFrame
        else noTransition
    | _, _ => noTransition
  (draw, 0.4)

/-- `addContentAwareOverlay` (lines 803-810): a sentiment-tinted overlay whose
alpha is `0.1 + sin(progress·2π)·0.05`. -/
structure OverlayPaint where
  r : ℕ
  g : ℕ
  b : ℕ
  alpha : ℝ

noncomputable def addContentAwareOverlay (aiSummary : VideoSummaryData)
    (progress : ℚ) : OverlayPaint :=
  let alpha : ℝ := 0.1 + Real.sin ((progress : ℝ) * Real.pi * 2) * 0.05
  match aiSummary.sentiment with
  | .positive => ⟨34, 197, 94, alpha⟩
  | .negative => ⟨239, 68, 68, alpha⟩
  | .neutral => ⟨59, 130, 246, alpha⟩

/-- `wrapText` (lines 869-890).  Text metrics come from the drawing surface,
so the width oracle `measure` is a parameter; each emitted triple is a
`fillText(line, x, currentY)`. -/
def wrapText (measure : String → ℚ) (text : String) (x y maxWidth lineHeight : ℚ) :
    List (String × ℚ × ℚ) :=
  let step := fun (st : String × ℚ × List (String × ℚ × ℚ)) (word : String) =>
    let (line, currentY, acc) := st
    let testLine := line ++ (if line ≠ "" then " " else "") ++ word
    if maxWidth < measure testLine ∧ line ≠ "" then
      (word, currentY + lineHeight, acc ++ [(line, x, currentY)])
    else (testLine, currentY, acc)
  let out := (text.splitOn " ").foldl step ("", y, [])
  if out.1 ≠ "" then out.2.2 ++ [(out.1, x, out.2.1)] else out.2.2

/-- The draw calls `renderEnhancedVisualElement` issues inside its
`if (progress > 0)` block for one element. -/
inductive ElementOps
  | textOps (titleDraw : Option (String × ℚ × ℚ)) (bodyLines : List (String × ℚ × ℚ))
  | progressOps (trackX trackY trackWidth trackHeight fillWidth : ℚ)
  | noOps
deriving DecidableEq, Repr

structure ElementDraw where
  alpha : ℚ
  ops : ElementOps
deriving DecidableEq, Repr

/-- `renderEnhancedVisualElement` (lines 812-846): nothing is drawn while the
clamped animation progress is `0`; otherwise the element is drawn with global
alpha equal to that progress. -/
def renderEnhancedVisualElement (measure : String → ℚ) (element : VisualElement)
    (segmentTime : ℚ) (canvasWidth canvasHeight : ℚ) : Option ElementDraw :=
  let x := element.position.x / 100 * canvasWidth
  let y := element.position.y / 100 * canvasHeight
  let w := element.position.width / 100 * canvasWidth
  let progress := max 0 (min 1 ((segmentTime - element.animation.delay) / element.animation.duration))
  if 0 < progress then
    some
      { alpha := progress
        ops :=
          if element.type = .text then
            let titleDraw := match element.content with
              | .text tc => tc.title.map (fun t => (t, x, y + 50))
              | .progressData _ => none
            let bodyLines := match element.content with
              | .text tc =>
                  match tc.body with
                  | some body => wrapText measure body x (y + 100) w 50
                  | none => []
              | .progressData _ => []
            .textOps titleDraw bodyLines
          else if element.type = .progressBar then
            let h := element.position.height / 100 * canvasHeight
            let percentage := match element.content with
              | .progressData pc => pc.percentage
              | .text _ => 0
            .progressOps x y w h (w * percentage / 100)
          else .noOps }
  else none

/-- `addProfessionalUIElements` (lines 848-867): the elapsed-time readout and
the constant badge text. -/
def addProfessionalUIElements (segment : Segment) (segmentTime audioDuration : ℚ) :
    String × String :=
  let currentTime := segment.startTime + segmentTime
  (toString (Int.floor currentTime) ++ "s / " ++ toString (round audioDuration) ++ "s",
   "AI SUMMARY")

/-- Everything one call of `renderOriginalContentFrame` paints, in order. -/
structure FrameDirectives where
  background : BackgroundDraw
  readabilityOverlayAlpha : ℚ
  sentimentOverlay : OverlayPaint
  elements : List (Option ElementDraw)
  timeBadge : String
  summaryBadge : String

/-- `renderOriginalContentFrame` (lines 636-664).  The wall clock `now`
(milliseconds, as `Date.now()` would return) is in scope for the whole
renderer, but the body — translated from the source — never reads it: no call
in this pipeline consults `Date.now()` or `Math.random()`. -/
noncomputable def renderOriginalContentFrame
    (originalVideoFrames preloadedFrames : List String)
    (measure : String → ℚ) (audioDuration : ℚ)
    (segment : Segment) (previousSegment : Option Segment)
    (segmentTime segmentProgress : ℚ)
    (aiSummary : VideoSummaryData)
    (canvasWidth canvasHeight : ℚ) (_now : ℕ) : FrameDirectives :=
  let bg := renderOriginalVideoBackground originalVideoFrames preloadedFrames
    segment previousSegment segmentTime segmentProgress canvasWidth canvasHeight
  { background := bg.1
    readabilityOverlayAlpha := bg.2
    sentimentOverlay := addContentAwareOverlay aiSummary segmentProgress
    elements := segment.content.visualElements.map
      (fun e => renderEnhancedVisualElement measure e segmentTime canvasWidth canvasHeight)
    timeBadge := (addProfessionalUIElements segment segmentTime audioDuration).1
    summaryBadge := (addProfessionalUIElements segment segmentTime audioDuration).2 }

/-! ## Capture Driver (`animateOriginalContentFrames`, lines 591-634) -/

/-- One tick of the `animate` loop: the synthetic time `currentFrame / fps`
and the segment `Array.find` locates for it (`none` when no segment contains
the time, in which case the renderer is not invoked). -/
def captureTick (segments : List Segment) (fps : ℕ) (currentFrame : ℕ) :
    ℚ × Option Segment :=
  let currentTime : ℚ := (currentFrame : ℚ) / (fps : ℚ)
  (currentTime,
   segments.find? (fun s => decide (s.startTime ≤ currentTime ∧ currentTime < s.endTime)))

/-- The `animate` callback of `animateOriginalContentFrames`, which the
driver invokes once at frame `currentFrame` (0 on entry): it performs its
tick unconditionally, increments the frame counter, and re-schedules itself
via `requestAnimationFrame` while `currentFrame < totalFrames` (where
`totalFrames = this.audioDuration * fps`, a rational), calling `onComplete`
otherwise.  The list of ticks performed from `currentFrame` on is returned;
termination is by the integer frame counter reaching `⌈totalFrames⌉`. -/
def animateTicks (segments : List Segment) (fps : ℕ) (totalFrames : ℚ)
    (currentFrame : ℕ) : List (ℚ × Option Segment) :=
  captureTick segments fps currentFrame ::
    (if h : ((currentFrame + 1 : ℕ) : ℚ) < totalFrames then
      animateTicks segments fps totalFrames (currentFrame + 1)
    else [])
termination_by (⌈totalFrames⌉).toNat - currentFrame
decreasing_by
  have h2 : ((currentFrame + 1 : ℕ) : ℤ) < ⌈totalFrames⌉ := by
    rw [Int.lt_ceil]; exact_mod_cast h
  omega

end VideoGenerationService

namespace AnimationService

/-! ## `animationService.ts` -/

/-- `easingFunctions.linear` (line 26). -/
def linear (t : ℚ) : ℚ := t

/-- `easingFunctions.easeIn` (line 27). -/
def easeIn (t : ℚ) : ℚ := t * t

/-- `easingFunctions.easeOut` (line 28). -/
def easeOut (t : ℚ) : ℚ := 1 - (1 - t) * (1 - t)

/-- `easingFunctions.easeInOut` (line 29). -/
def easeInOut (t : ℚ) : ℚ :=
  if t < 0.5 then 2 * t * t else 1 - (-2 * t + 2) ^ 2 / 2

/-- `easingFunctions.bounce` (lines 30-37), the three-threshold bounce. -/
def bounce (t : ℚ) : ℚ :=
  let n1 : ℚ := 7.5625
  let d1 : ℚ := 2.75
  if t < 1 / d1 then n1 * t * t
  else if t < 2 / d1 then n1 * (t - 1.5 / d1) * (t - 1.5 / d1) + 0.75
  else if t < 2.5 / d1 then n1 * (t - 2.25 / d1) * (t - 2.25 / d1) + 0.9375
  else n1 * (t - 2.625 / d1) * (t - 2.625 / d1) + 0.984375

/-- `easingFunctions.elastic` (lines 38-41): special-cases `t = 0` and
`t = 1` exactly, otherwise `-2^(10t-10) · sin((10t - 10.75)·c4)`.  The
transcendental branch forces `ℝ`. -/
noncomputable def elastic (t : ℝ) : ℝ :=
  let c4 : ℝ := 2 * Real.pi / 3
  if t = 0 then 0
  else if t = 1 then 1
  else -(2 : ℝ) ^ (10 * t - 10) * Real.sin ((t * 10 - 10.75) * c4)

/-- The draw directives of `renderTypewriterText` (lines 99-117): the
revealed prefix, and the blinking caret rectangle when it is drawn.  The
caret condition reads the wall clock: `progress < 1 && Math.floor(Date.now()
/ 500) % 2`. -/
structure TypewriterDraw where
  visibleText : String
  caret : Option (ℚ × ℚ)
deriving DecidableEq, Repr

/-- `renderTypewriterText` (lines 99-117).  `now` is `Date.now()` in
milliseconds; `measure` is the surface's text-width oracle used for the caret
x position. -/
def renderTypewriterText (measure : String → ℚ) (text : String) (x y : ℚ)
    (progress : ℚ) (now : ℕ) : TypewriterDraw :=
  let visibleChars := (Int.floor ((text.length : ℚ) * progress)).toNat
  let visibleText := text.take visibleChars
  { visibleText := visibleText
    caret :=
      if progress < 1 ∧ (now / 500) % 2 = 1 then
        some (x + measure visibleText, y - 20)
      else none }

/-- `renderZoomTransition` (lines 344-378): the previous image scales DOWN
`1 → 0.5` while fading out and the incoming image scales up `0.5 → 1`. -/
def renderZoomTransition (fromImage toImage : Option String) (progress : ℚ)
    (bounds : Bounds) : List ImageDraw :=
  let centerX := bounds.x + bounds.width / 2
  let centerY := bounds.y + bounds.height / 2
  (match fromImage with
   | some img => [{ image := img, alpha := 1 - progress,
                    scale := 1 - progress * 0.5,
                    tx := centerX, ty := centerY, tx2 := -centerX, ty2 := -centerY,
                    x := bounds.x, y := bounds.y,
                    width := bounds.width, height := bounds.height }]
   | none => [])
  ++ (match toImage with
   | some img => [{ image := img, alpha := progress,
                    scale := 0.5 + progress * 0.5,
                    tx := centerX, ty := centerY, tx2 := -centerX, ty2 := -centerY,
                    x := bounds.x, y := bounds.y,
                    width := bounds.width, height := bounds.height }]
   | none => [])

end AnimationService

/-! ## Timeline spec predicates -/

/-- The segment list `l` tiles the interval from `a` to `b`:  the first
segment starts at `a`, each segment starts where the previous one ends, and
the last one ends at `b`. -/
def chainedFrom : ℚ → ℚ → List Segment → Prop
  | a, b, [] => a = b
  | a, b, s :: rest => s.startTime = a ∧ chainedFrom s.endTime b rest

instance chainedFromDecidable : ∀ a b l, Decidable (chainedFrom a b l)
  | a, b, [] => decidable_of_iff (a = b) (by simp [chainedFrom])
  | a, b, s :: rest =>
    have : Decidable (chainedFrom s.endTime b rest) := chainedFromDecidable s.endTime b rest
    decidable_of_iff (s.startTime = a ∧ chainedFrom s.endTime b rest) (by simp [chainedFrom])

/-! ## Concrete sample inputs for witnesses and counterexamples -/

def sampleFrames : List String := ["f0", "f1", "f2"]

def sampleVideo : YouTubeVideoData :=
  { id := "v1", title := "T", description := "d", duration := 600,
    channelTitle := "C", thumbnail := "f0", publishedAt := "2023-01-01",
    viewCount := 1000, tags := ["t"] }

def sampleSummary5 : VideoSummaryData :=
  { summary := "s", keyPoints := ["p1", "p2", "p3", "p4", "p5"],
    mainTopics := ["X", "Y"], sentiment := .positive, difficulty := .intermediate }

def sampleSummary0 : VideoSummaryData :=
  { sampleSummary5 with keyPoints := [] }

def sampleSummary1 : VideoSummaryData :=
  { sampleSummary5 with keyPoints := ["p1"] }

/-- A concrete text-width oracle for the counterexamples: ten units per
character. -/
def sampleMeasure : String → ℚ := fun s => (s.length : ℚ) * 10

/-- The planner's conclusion segment for the sample five-key-point request:
its transition directive is the 2-second particle effect. -/
def sampleConclusion : Segment :=
  VideoGenerationService.conclusionSegment sampleFrames sampleSummary5 60
    (min 8 (60 * 0.15))

/-- The planner's last key-point segment for the same request, used as the
previous segment of the conclusion. -/
def samplePrevious : Segment :=
  VideoGenerationService.mkKeyPointSegment sampleFrames sampleSummary5 60 8 (44/5) 4 "p5"

/-- Is this background decision a transition blend? -/
def VideoGenerationService.BackgroundDraw.isBlend :
    VideoGenerationService.BackgroundDraw → Bool
  | .transitionBlend _ _ _ _ => true
  | .parallax _ _ _ _ _ => false
  | .gradientFallback _ _ => false

namespace VideoGenerationService

/-! ## Planner structure lemmas -/

lemma mkKeyPointSegment_startTime (ofr : List String) (sum : VideoSummaryData)
    (T i d : ℚ) (k : ℕ) (p : String) :
    (mkKeyPointSegment ofr sum T i d k p).startTime = i + k * d := rfl

lemma mkKeyPointSegment_endTime (ofr : List String) (sum : VideoSummaryData)
    (T i d : ℚ) (k : ℕ) (p : String) :
    (mkKeyPointSegment ofr sum T i d k p).endTime = i + k * d + d := rfl

lemma mkKeyPointSegment_stype (ofr : List String) (sum : VideoSummaryData)
    (T i d : ℚ) (k : ℕ) (p : String) :
    (mkKeyPointSegment ofr sum T i d k p).stype = SegmentType.keypoint := rfl

lemma mkKeyPointSegment_text (ofr : List String) (sum : VideoSummaryData)
    (T i d : ℚ) (k : ℕ) (p : String) :
    (mkKeyPointSegment ofr sum T i d k p).content.text = p := rfl

lemma introSegment_startTime (ofr : List String) (vd : YouTubeVideoData) (T i : ℚ) :
    (introSegment ofr vd T i).startTime = 0 := rfl

lemma introSegment_endTime (ofr : List String) (vd : YouTubeVideoData) (T i : ℚ) :
    (introSegment ofr vd T i).endTime = i := rfl

lemma introSegment_stype (ofr : List String) (vd : YouTubeVideoData) (T i : ℚ) :
    (introSegment ofr vd T i).stype = SegmentType.intro := rfl

lemma conclusionSegment_startTime (ofr : List String) (sum : VideoSummaryData) (T c : ℚ) :
    (conclusionSegment ofr sum T c).startTime = T - c := rfl

lemma conclusionSegment_endTime (ofr : List String) (sum : VideoSummaryData) (T c : ℚ) :
    (conclusionSegment ofr sum T c).endTime = T := rfl

lemma conclusionSegment_stype (ofr : List String) (sum : VideoSummaryData) (T c : ℚ) :
    (conclusionSegment ofr sum T c).stype = SegmentType.conclusion := rfl

/-- The planner, written out: intro, one mapped segment per enumerated key
point, conclusion. -/
lemma createTimedVideoSegments_eq (ofr : List String) (vd : YouTubeVideoData)
    (sum : VideoSummaryData) (T : ℚ) :
    createTimedVideoSegments ofr vd sum T =
      introSegment ofr vd T (min 8 (T * 0.15))
        :: (sum.keyPoints.enum.map fun ip =>
              mkKeyPointSegment ofr sum T (min 8 (T * 0.15))
                ((T - min 8 (T * 0.15) - min 8 (T * 0.15)) / (sum.keyPoints.length : ℚ))
                ip.1 ip.2)
        ++ [conclusionSegment ofr sum T (min 8 (T * 0.15))] := rfl

lemma planner_length (ofr : List String) (vd : YouTubeVideoData)
    (sum : VideoSummaryData) (T : ℚ) :
    (createTimedVideoSegments ofr vd sum T).length = sum.keyPoints.length + 2 := by
  rw [createTimedVideoSegments_eq]
  simp [List.enum_length]

lemma planner_head (ofr : List String) (vd : YouTubeVideoData)
    (sum : VideoSummaryData) (T : ℚ) :
    (createTimedVideoSegments ofr vd sum T).head? =
      some (introSegment ofr vd T (min 8 (T * 0.15))) := rfl

lemma planner_getLast (ofr : List String) (vd : YouTubeVideoData)
    (sum : VideoSummaryData) (T : ℚ) :
    (createTimedVideoSegments ofr vd sum T).getLast? =
      some (conclusionSegment ofr sum T (min 8 (T * 0.15))) := by
  rw [createTimedVideoSegments_eq]
  exact List.getLast?_concat _

lemma chainedFrom_nil (a b : ℚ) : chainedFrom a b [] ↔ a = b := Iff.rfl

lemma chainedFrom_cons (a b : ℚ) (s : Segment) (l : List Segment) :
    chainedFrom a b (s :: l) ↔ s.startTime = a ∧ chainedFrom s.endTime b l := Iff.rfl

/-- The enumerated key-point segments tile the timeline from `i + n·d`
onwards, continuing into whatever tiles from `i + (n + len)·d`. -/
lemma chained_enumFrom (ofr : List String) (sum : VideoSummaryData) (T i d : ℚ)
    (pts : List String) :
    ∀ (n : ℕ) (b : ℚ) (tail : List Segment),
      chainedFrom (i + ((n : ℚ) + (pts.length : ℚ)) * d) b tail →
      chainedFrom (i + (n : ℚ) * d) b
        (((List.enumFrom n pts).map fun ip =>
            mkKeyPointSegment ofr sum T i d ip.1 ip.2) ++ tail) := by
  induction pts with
  | nil =>
      intro n b tail h
      simpa using h
  | cons p ps ih =>
      intro n b tail h
      simp only [List.enumFrom, List.map_cons, List.cons_append, chainedFrom_cons]
      refine ⟨mkKeyPointSegment_startTime ofr sum T i d n p, ?_⟩
      rw [mkKeyPointSegment_endTime]
      rw [show i + (n : ℚ) * d + d = i + ((n + 1 : ℕ) : ℚ) * d from by push_cast; ring]
      apply ih (n + 1) b tail
      rw [show i + (((n + 1 : ℕ) : ℚ) + (ps.length : ℚ)) * d
          = i + ((n : ℚ) + (((p :: ps).length : ℕ) : ℚ)) * d from by
        push_cast [List.length_cons]; ring]
      exact h

/-- The planner's output tiles `[0, totalDuration]` whenever there is at
least one key point. -/
lemma planner_chained (ofr : List String) (vd : YouTubeVideoData)
    (sum : VideoSummaryData) (T : ℚ) (hN : sum.keyPoints ≠ []) :
    chainedFrom 0 T (createTimedVideoSegments ofr vd sum T) := by
  have hlen : (sum.keyPoints.length : ℚ) ≠ 0 := by
    exact_mod_cast fun h => hN (List.length_eq_zero.mp (by exact_mod_cast h))
  rw [createTimedVideoSegments_eq, List.cons_append, chainedFrom_cons]
  refine ⟨introSegment_startTime ofr vd T _, ?_⟩
  rw [introSegment_endTime]
  have tailChain : chainedFrom
      (min 8 (T * 0.15) + ((0 : ℚ) + (sum.keyPoints.length : ℚ))
        * ((T - min 8 (T * 0.15) - min 8 (T * 0.15)) / (sum.keyPoints.length : ℚ)))
      T [conclusionSegment ofr sum T (min 8 (T * 0.15))] := by
    rw [chainedFrom_cons, conclusionSegment_endTime, conclusionSegment_startTime,
      chainedFrom_nil]
    refine ⟨?_, rfl⟩
    field_simp
  have := chained_enumFrom ofr sum T (min 8 (T * 0.15))
    ((T - min 8 (T * 0.15) - min 8 (T * 0.15)) / (sum.keyPoints.length : ℚ))
    sum.keyPoints 0 T [conclusionSegment ofr sum T (min 8 (T * 0.15))] tailChain
  simpa [List.enum] using this

/-- For positive total duration the intro (and conclusion) duration
`min(8, 0.15·T)` is positive. -/
lemma introDuration_pos (T : ℚ) (hT : 0 < T) : 0 < min 8 (T * 0.15) := by
  refine lt_min (by norm_num) (by nlinarith)

/-- For positive total duration and at least one key point, the per-key-point
duration is positive. -/
lemma keyPointDuration_pos (T : ℚ) (hT : 0 < T) (N : ℕ) (hN : 0 < N) :
    0 < (T - min 8 (T * 0.15) - min 8 (T * 0.15)) / (N : ℚ) := by
  refine div_pos ?_ (by exact_mod_cast hN)
  rcases min_cases (8 : ℚ) (T * 0.15) with ⟨hm, hle⟩ | ⟨hm, hle⟩ <;> rw [hm] <;> nlinarith

/-- Each planned segment has positive length. -/
lemma planner_start_lt_end (ofr : List String) (vd : YouTubeVideoData)
    (sum : VideoSummaryData) (T : ℚ) (hT : 0 < T) (hN : sum.keyPoints ≠ []) :
    ∀ s ∈ createTimedVideoSegments ofr vd sum T, s.startTime < s.endTime := by
  intro s hs
  have hNpos : 0 < sum.keyPoints.length := List.length_pos.mpr hN
  rw [createTimedVideoSegments_eq] at hs
  rcases List.mem_append.mp hs with hs | hs
  · rcases List.mem_cons.mp hs with rfl | hs
    · rw [introSegment_startTime, introSegment_endTime]
      exact introDuration_pos T hT
    · rcases List.mem_map.mp hs with ⟨ip, _, rfl⟩
      rw [mkKeyPointSegment_startTime, mkKeyPointSegment_endTime]
      have := keyPointDuration_pos T hT sum.keyPoints.length hNpos
      linarith
  · rw [List.mem_singleton] at hs
    subst hs
    rw [conclusionSegment_startTime, conclusionSegment_endTime]
    have := introDuration_pos T hT
    linarith

/-- The texts of the mapped key-point segments are the key points. -/
lemma kp_texts (ofr : List String) (sum : VideoSummaryData) (T i d : ℚ)
    (pts : List String) :
    ∀ n : ℕ, ((List.enumFrom n pts).map fun ip =>
        (mkKeyPointSegment ofr sum T i d ip.1 ip.2).content.text) = pts := by
  induction pts with
  | nil => intro n; rfl
  | cons p ps ih =>
      intro n
      rw [show List.enumFrom n (p :: ps) = (n, p) :: List.enumFrom (n + 1) ps from rfl,
        List.map_cons, ih (n + 1)]
      rfl

/-- Filtering the planner's output down to key-point segments and reading
their texts recovers the key points, in order. -/
lemma planner_filter_map (ofr : List String) (vd : YouTubeVideoData)
    (sum : VideoSummaryData) (T : ℚ) :
    (((createTimedVideoSegments ofr vd sum T).filter
        (fun s => decide (s.stype = SegmentType.keypoint))).map
      fun s => s.content.text) = sum.keyPoints := by
  rw [createTimedVideoSegments_eq, List.filter_append, List.filter_cons_of_neg
    (by rw [introSegment_stype]; simp), List.filter_cons_of_neg
    (by rw [conclusionSegment_stype]; simp), List.filter_nil,
    List.filter_eq_self.mpr (by
      intro s hs
      rcases List.mem_map.mp hs with ⟨ip, _, rfl⟩
      rw [mkKeyPointSegment_stype]
      simp), List.append_nil, List.map_map]
  exact kp_texts ofr sum T _ _ sum.keyPoints 0

/-- No mapped key-point segment carries the `intro` or `conclusion` kind. -/
lemma planner_countP_intro (ofr : List String) (vd : YouTubeVideoData)
    (sum : VideoSummaryData) (T : ℚ) :
    (createTimedVideoSegments ofr vd sum T).countP
      (fun s => decide (s.stype = SegmentType.intro)) = 1 := by
  rw [createTimedVideoSegments_eq, List.countP_append, List.countP_cons,
    List.countP_eq_zero.mpr (by
      intro s hs
      rcases List.mem_map.mp hs with ⟨ip, _, rfl⟩
      rw [mkKeyPointSegment_stype]
      simp),
    List.countP_cons, List.countP_nil]
  rw [introSegment_stype, conclusionSegment_stype]
  simp

lemma planner_countP_conclusion (ofr : List String) (vd : YouTubeVideoData)
    (sum : VideoSummaryData) (T : ℚ) :
    (createTimedVideoSegments ofr vd sum T).countP
      (fun s => decide (s.stype = SegmentType.conclusion)) = 1 := by
  rw [createTimedVideoSegments_eq, List.countP_append, List.countP_cons,
    List.countP_eq_zero.mpr (by
      intro s hs
      rcases List.mem_map.mp hs with ⟨ip, _, rfl⟩
      rw [mkKeyPointSegment_stype]
      simp),
    List.countP_cons, List.countP_nil]
  rw [introSegment_stype, conclusionSegment_stype]
  simp

/-- The `k`-th key-point segment (position `k+1` in the planner's output) has
length exactly `keyPointDuration`. -/
lemma planner_get_keypoint (ofr : List String) (vd : YouTubeVideoData)
    (sum : VideoSummaryData) (T : ℚ) (k : ℕ) (hk : k < sum.keyPoints.length) :
    ((createTimedVideoSegments ofr vd sum T).get? (k + 1)).map
        (fun s => s.endTime - s.startTime)
      = some ((T - min 8 (T * 0.15) - min 8 (T * 0.15)) / (sum.keyPoints.length : ℚ)) := by
  rw [createTimedVideoSegments_eq]
  rw [List.get?_append (by
    simp only [List.length_cons, List.length_map, List.enum_length]
    omega)]
  rw [List.get?_cons_succ, List.get?_map, List.get?_enum, List.get?_eq_get hk]
  simp only [Option.map_some']
  rw [mkKeyPointSegment_endTime, mkKeyPointSegment_startTime]
  congr 1
  ring

end VideoGenerationService

open VideoGenerationService

/-! ## Claim theorems: the Segment Planner -/

/-- C1: for every summary with at least one key point and every total
duration, the planner computes `introDuration = min(8, 0.15·T)` (the end of
the first segment), `conclusionDuration = min(8, 0.15·T)` (the last segment
starts at `T - min(8, 0.15·T)`), and gives every key-point segment the length
`(T - introDuration - conclusionDuration) / keyPointCount`; in particular for
`T = 60` and `5` key points the durations are `8`, `8` and `8.8` seconds,
with `7` segments tiling `[0, 60]`. -/
theorem planner_durations_and_example
    (ofr : List String) (vd : YouTubeVideoData) (sum : VideoSummaryData) (T : ℚ)
    (hN : 1 ≤ sum.keyPoints.length) :
    ((createTimedVideoSegments ofr vd sum T).head?.map Segment.endTime
        = some (min 8 (T * 0.15)))
    ∧ ((createTimedVideoSegments ofr vd sum T).getLast?.map Segment.startTime
        = some (T - min 8 (T * 0.15)))
    ∧ (∀ k < sum.keyPoints.length,
        ((createTimedVideoSegments ofr vd sum T).get? (k + 1)).map
            (fun s => s.endTime - s.startTime)
          = some ((T - min 8 (T * 0.15) - min 8 (T * 0.15)) / (sum.keyPoints.length : ℚ)))
    ∧ (T = 60 → sum.keyPoints.length = 5 →
        min 8 (T * 0.15) = 8
        ∧ (T - min 8 (T * 0.15) - min 8 (T * 0.15)) / (sum.keyPoints.length : ℚ) = 8.8
        ∧ (createTimedVideoSegments ofr vd sum T).length = 7
        ∧ chainedFrom 0 60 (createTimedVideoSegments ofr vd sum T)) := by
  refine ⟨?_, ?_, ?_, ?_⟩
  · rw [planner_head, Option.map_some', introSegment_endTime]
  · rw [planner_getLast, Option.map_some', conclusionSegment_startTime]
  · intro k hk
    exact planner_get_keypoint ofr vd sum T k hk
  · intro hT h5
    subst hT
    have hmin : min (8 : ℚ) (60 * 0.15) = 8 := by norm_num
    refine ⟨hmin, ?_, ?_, ?_⟩
    · rw [hmin, h5]; norm_num
    · rw [planner_length, h5]
    · exact planner_chained ofr vd sum 60 (by
        intro h
        rw [h] at h5
        exact absurd h5 (by norm_num))

/-- C1 witness: the concrete end-to-end scenario (`T = 60`, five key
points). -/
theorem planner_durations_and_example_witness :
    (createTimedVideoSegments sampleFrames sampleVideo sampleSummary5 60).length = 7
    ∧ chainedFrom 0 60 (createTimedVideoSegments sampleFrames sampleVideo sampleSummary5 60) := by
  have h := planner_durations_and_example sampleFrames sampleVideo sampleSummary5 60 (by decide)
  exact ⟨(h.2.2.2 rfl rfl).2.2.1, (h.2.2.2 rfl rfl).2.2.2⟩

/-- C2: for every valid input (at least one key point, `0 < totalDuration`)
the planner's list is contiguous and non-overlapping, spans exactly
`[0, totalDuration]`, lists the key points in order, and has exactly one
intro segment (first) and one conclusion segment (last). -/
theorem planner_partition_invariants
    (ofr : List String) (vd : YouTubeVideoData) (sum : VideoSummaryData) (T : ℚ)
    (hT : 0 < T) (hN : sum.keyPoints ≠ []) :
    chainedFrom 0 T (createTimedVideoSegments ofr vd sum T)
    ∧ (∀ s ∈ createTimedVideoSegments ofr vd sum T, s.startTime < s.endTime)
    ∧ ((((createTimedVideoSegments ofr vd sum T).filter
          (fun s => decide (s.stype = SegmentType.keypoint))).map
        fun s => s.content.text) = sum.keyPoints)
    ∧ (createTimedVideoSegments ofr vd sum T).head?.map Segment.stype
        = some SegmentType.intro
    ∧ (createTimedVideoSegments ofr vd sum T).getLast?.map Segment.stype
        = some SegmentType.conclusion
    ∧ (createTimedVideoSegments ofr vd sum T).countP
        (fun s => decide (s.stype = SegmentType.intro)) = 1
    ∧ (createTimedVideoSegments ofr vd sum T).countP
        (fun s => decide (s.stype = SegmentType.conclusion)) = 1 := by
  refine ⟨planner_chained ofr vd sum T hN,
    planner_start_lt_end ofr vd sum T hT hN,
    planner_filter_map ofr vd sum T, ?_, ?_,
    planner_countP_intro ofr vd sum T,
    planner_countP_conclusion ofr vd sum T⟩
  · rw [planner_head, Option.map_some', introSegment_stype]
  · rw [planner_getLast, Option.map_some', conclusionSegment_stype]

/-- C2 witness: the invariants at the concrete five-key-point input. -/
theorem planner_partition_invariants_witness :
    chainedFrom 0 60 (createTimedVideoSegments sampleFrames sampleVideo sampleSummary5 60)
    ∧ (createTimedVideoSegments sampleFrames sampleVideo sampleSummary5 60).countP
        (fun s => decide (s.stype = SegmentType.intro)) = 1 := by
  have h := planner_partition_invariants sampleFrames sampleVideo sampleSummary5 60
    (by norm_num) (by decide)
  exact ⟨h.1, h.2.2.2.2.2.1⟩

/-- C3 counterexample: with zero key points and `T = 60` the planner does
return exactly 2 segments, but the conclusion starts at `52` while the intro
ends at `8` — the claimed equality `conclusion start = intro end` is false
(the middle `[8, 52]` is covered by no segment). -/
theorem planner_degenerate_counterexample :
    (createTimedVideoSegments sampleFrames sampleVideo sampleSummary0 60).length = 2
    ∧ (createTimedVideoSegments sampleFrames sampleVideo sampleSummary0 60).getLast?.map
        Segment.startTime = some 52
    ∧ (createTimedVideoSegments sampleFrames sampleVideo sampleSummary0 60).head?.map
        Segment.endTime = some 8
    ∧ (createTimedVideoSegments sampleFrames sampleVideo sampleSummary0 60).getLast?.map
        Segment.startTime
      ≠ (createTimedVideoSegments sampleFrames sampleVideo sampleSummary0 60).head?.map
        Segment.endTime := by
  refine ⟨?_, ?_, ?_, ?_⟩
  · rw [planner_length]; rfl
  · rw [planner_getLast, Option.map_some', conclusionSegment_startTime]; norm_num
  · rw [planner_head, Option.map_some', introSegment_endTime]; norm_num
  · rw [planner_getLast, planner_head, Option.map_some', Option.map_some',
      conclusionSegment_startTime, introSegment_endTime]
    norm_num

/-- C3 (amended): for every key-point count `N ≥ 0` the planner emits exactly
`N + 2` segments, and for `keyPoints = []` it returns exactly an intro and a
conclusion with no division-by-zero failure; the conclusion then starts at
`totalDuration - min(8, 0.15·totalDuration)`, which need not equal the intro
end `min(8, 0.15·totalDuration)`. -/
theorem planner_degenerate_amended (ofr : List String) (vd : YouTubeVideoData)
    (sum : VideoSummaryData) (T : ℚ) :
    (createTimedVideoSegments ofr vd sum T).length = sum.keyPoints.length + 2
    ∧ (sum.keyPoints = [] →
        (createTimedVideoSegments ofr vd sum T).map Segment.stype
            = [SegmentType.intro, SegmentType.conclusion]
        ∧ (createTimedVideoSegments ofr vd sum T).head?.map Segment.endTime
            = some (min 8 (T * 0.15))
        ∧ (createTimedVideoSegments ofr vd sum T).getLast?.map Segment.startTime
            = some (T - min 8 (T * 0.15))) := by
  refine ⟨planner_length ofr vd sum T, fun h0 => ⟨?_, ?_, ?_⟩⟩
  · rw [createTimedVideoSegments_eq, h0]
    rfl
  · rw [planner_head, Option.map_some', introSegment_endTime]
  · rw [planner_getLast, Option.map_some', conclusionSegment_startTime]

/-- C4 counterexample: at `totalDuration = 0` (and one key point) the planner
does not fail — it returns a 3-element segment list whose segments are all
degenerate, ending at time `0`. -/
theorem planner_no_validation_counterexample :
    (createTimedVideoSegments sampleFrames sampleVideo sampleSummary1 0).length = 3
    ∧ (createTimedVideoSegments sampleFrames sampleVideo sampleSummary1 0).getLast?.map
        Segment.endTime = some 0 := by
  refine ⟨?_, ?_⟩
  · rw [planner_length]; rfl
  · rw [planner_getLast, Option.map_some', conclusionSegment_endTime]

/-- C4 (amended): the planner performs no duration validation and has no
error channel at all: for every `totalDuration ≤ 0` it still returns
`keyPoints.length + 2` segments, the last of which ends at the non-positive
`totalDuration` itself. -/
theorem planner_nonpositive_duration_amended (ofr : List String)
    (vd : YouTubeVideoData) (sum : VideoSummaryData) (T : ℚ) (hT : T ≤ 0) :
    (createTimedVideoSegments ofr vd sum T).length = sum.keyPoints.length + 2
    ∧ (createTimedVideoSegments ofr vd sum T).getLast?.map Segment.endTime = some T
    ∧ ((createTimedVideoSegments ofr vd sum T).getLast?.map Segment.endTime).getD 1 ≤ 0 := by
  refine ⟨planner_length ofr vd sum T, ?_, ?_⟩
  · rw [planner_getLast, Option.map_some', conclusionSegment_endTime]
  · rw [planner_getLast, Option.map_some', conclusionSegment_endTime]
    simpa using hT

/-- C4 witness: the amended statement at `totalDuration = 0`. -/
theorem planner_nonpositive_duration_amended_witness :
    (createTimedVideoSegments sampleFrames sampleVideo sampleSummary1 0).length
      = sampleSummary1.keyPoints.length + 2 :=
  (planner_nonpositive_duration_amended sampleFrames sampleVideo sampleSummary1 0
    (le_refl 0)).1

/-! ## Claim theorems: Capture Driver -/

namespace VideoGenerationService

/-- Every planned segment ends no later than the total duration (for
nonnegative total durations). -/
lemma planner_endTime_le (ofr : List String) (vd : YouTubeVideoData)
    (sum : VideoSummaryData) (T : ℚ) (hT : 0 ≤ T) :
    ∀ s ∈ createTimedVideoSegments ofr vd sum T, s.endTime ≤ T := by
  intro s hs
  have hm1 : min 8 (T * 0.15) ≤ T * 0.15 := min_le_right _ _
  have hm0 : 0 ≤ min 8 (T * 0.15) := le_min (by norm_num) (by nlinarith)
  rw [createTimedVideoSegments_eq] at hs
  rcases List.mem_append.mp hs with hs | hs
  · rcases List.mem_cons.mp hs with rfl | hs
    · rw [introSegment_endTime]; linarith
    · rcases List.mem_map.mp hs with ⟨ip, hip, rfl⟩
      obtain ⟨hidx, -⟩ := List.getElem?_eq_some.mp (List.mem_enum_iff_getElem?.mp hip)
      rw [mkKeyPointSegment_endTime]
      have hNpos : (0 : ℚ) < (sum.keyPoints.length : ℚ) := by
        exact_mod_cast Nat.lt_of_le_of_lt (Nat.zero_le ip.1) hidx
      have hd0 : 0 ≤ (T - min 8 (T * 0.15) - min 8 (T * 0.15)) / (sum.keyPoints.length : ℚ) := by
        apply div_nonneg (by linarith) (le_of_lt hNpos)
      have hk1 : ((ip.1 : ℚ) + 1) ≤ (sum.keyPoints.length : ℚ) := by exact_mod_cast hidx
      have h1 : ((ip.1 : ℚ) + 1)
            * ((T - min 8 (T * 0.15) - min 8 (T * 0.15)) / (sum.keyPoints.length : ℚ))
          ≤ (sum.keyPoints.length : ℚ)
            * ((T - min 8 (T * 0.15) - min 8 (T * 0.15)) / (sum.keyPoints.length : ℚ)) :=
        mul_le_mul_of_nonneg_right hk1 hd0
      have hNd : (sum.keyPoints.length : ℚ)
            * ((T - min 8 (T * 0.15) - min 8 (T * 0.15)) / (sum.keyPoints.length : ℚ))
          = T - min 8 (T * 0.15) - min 8 (T * 0.15) := by
        field_simp
      rw [show min 8 (T * 0.15) + (ip.1 : ℚ)
            * ((T - min 8 (T * 0.15) - min 8 (T * 0.15)) / (sum.keyPoints.length : ℚ))
            + ((T - min 8 (T * 0.15) - min 8 (T * 0.15)) / (sum.keyPoints.length : ℚ))
          = min 8 (T * 0.15) + ((ip.1 : ℚ) + 1)
            * ((T - min 8 (T * 0.15) - min 8 (T * 0.15)) / (sum.keyPoints.length : ℚ))
          from by ring]
      linarith
  · simp only [List.mem_singleton] at hs
    subst hs
    rw [conclusionSegment_endTime]

/-- One tick: whenever `Array.find` locates a segment (and so the renderer
is invoked), the tick's time lies below every bound on the segments' end
times. -/
lemma captureTick_render_lt (segments : List Segment) (fps : ℕ) (c : ℕ) (T : ℚ)
    (hseg : ∀ s ∈ segments, s.endTime ≤ T)
    (hsome : (captureTick segments fps c).2.isSome) :
    (captureTick segments fps c).1 < T := by
  simp only [captureTick] at hsome ⊢
  obtain ⟨s, hfind⟩ := Option.isSome_iff_exists.mp hsome
  have hpred := List.find?_some hfind
  have hmem := List.mem_of_find?_eq_some hfind
  simp only [decide_eq_true_eq] at hpred
  exact lt_of_lt_of_le hpred.2 (hseg s hmem)

lemma animateTicks_last (segments : List Segment) (fps : ℕ) (totalFrames : ℚ)
    (c : ℕ) (h : ¬ ((c + 1 : ℕ) : ℚ) < totalFrames) :
    animateTicks segments fps totalFrames c = [captureTick segments fps c] := by
  unfold animateTicks
  rw [dif_neg h]

lemma animateTicks_step (segments : List Segment) (fps : ℕ) (totalFrames : ℚ)
    (c : ℕ) (h : ((c + 1 : ℕ) : ℚ) < totalFrames) :
    animateTicks segments fps totalFrames c
      = captureTick segments fps c :: animateTicks segments fps totalFrames (c + 1) := by
  conv_lhs => unfold animateTicks
  rw [dif_pos h]

/-- The loop entered at frame `c` performs exactly `⌈totalFrames⌉.toNat - c`
ticks, provided that count is at least the one unconditional tick. -/
lemma animateTicks_length (segments : List Segment) (fps : ℕ) (totalFrames : ℚ) :
    ∀ (d c : ℕ), (⌈totalFrames⌉).toNat - c = d → 1 ≤ d →
      (animateTicks segments fps totalFrames c).length = d := by
  intro d
  induction d with
  | zero =>
      intro c h h1
      omega
  | succ n ih =>
      intro c h h1
      by_cases hc : ((c + 1 : ℕ) : ℚ) < totalFrames
      · have hc2 : ((c + 1 : ℕ) : ℤ) < ⌈totalFrames⌉ := by
          rw [Int.lt_ceil]; exact_mod_cast hc
        rw [animateTicks_step segments fps totalFrames c hc, List.length_cons,
          ih (c + 1) (by omega) (by omega)]
      · have hc2 : ¬ ((c + 1 : ℕ) : ℤ) < ⌈totalFrames⌉ := fun hx =>
          hc (by exact_mod_cast Int.lt_ceil.mp hx)
        rw [animateTicks_last segments fps totalFrames c hc]
        simp only [List.length_singleton]
        omega

/-- Whenever a tick of the loop locates a segment (and so invokes the
renderer), the tick's time is below every bound on the segments' end
times. -/
lemma animateTicks_render_lt (segments : List Segment) (fps : ℕ) (totalFrames : ℚ)
    (T : ℚ) (hseg : ∀ s ∈ segments, s.endTime ≤ T) :
    ∀ (d c : ℕ), (⌈totalFrames⌉).toNat - c = d →
      ∀ p ∈ animateTicks segments fps totalFrames c, p.2.isSome → p.1 < T := by
  intro d
  induction d with
  | zero =>
      intro c h p hp hsome
      have hstop : ¬ ((c + 1 : ℕ) : ℚ) < totalFrames := by
        intro hx
        have : ((c + 1 : ℕ) : ℤ) < ⌈totalFrames⌉ := by
          rw [Int.lt_ceil]; exact_mod_cast hx
        omega
      rw [animateTicks_last segments fps totalFrames c hstop,
        List.mem_singleton] at hp
      subst hp
      exact captureTick_render_lt segments fps c T hseg hsome
  | succ n ih =>
      intro c h p hp hsome
      by_cases hc : ((c + 1 : ℕ) : ℚ) < totalFrames
      · rw [animateTicks_step segments fps totalFrames c hc] at hp
        rcases List.mem_cons.mp hp with rfl | hp
        · exact captureTick_render_lt segments fps c T hseg hsome
        · exact ih (c + 1) (by omega) p hp hsome
      · rw [animateTicks_last segments fps totalFrames c hc,
          List.mem_singleton] at hp
        subst hp
        exact captureTick_render_lt segments fps c T hseg hsome

end VideoGenerationService

/-- C7: the Capture Driver's frame loop terminates: starting at frame `0`
with `totalFrames = totalDuration · fps`, exactly `⌈totalDuration · fps⌉`
ticks occur (1800 for `totalDuration = 60`, `fps = 30`), the loop performs
no further tick past any frame whose successor's time `∉ [0, totalDuration)`
(it halts once `currentFrame / fps ≥ totalDuration`), and the renderer is
never invoked at a `currentTime ≥ totalDuration`. -/
theorem capture_driver_terminates (segments : List Segment) (fps : ℕ) (T : ℚ)
    (hfps : 0 < fps) (hT : 0 < T) (hseg : ∀ s ∈ segments, s.endTime ≤ T) :
    (animateTicks segments fps (T * (fps : ℚ)) 0).length = (⌈T * (fps : ℚ)⌉).toNat
    ∧ (∀ p ∈ animateTicks segments fps (T * (fps : ℚ)) 0, p.2.isSome → p.1 < T)
    ∧ (∀ c : ℕ, T ≤ ((c + 1 : ℕ) : ℚ) / (fps : ℚ) →
        animateTicks segments fps (T * (fps : ℚ)) c = [captureTick segments fps c])
    ∧ (T = 60 → fps = 30 →
        (animateTicks segments fps (T * (fps : ℚ)) 0).length = 1800) := by
  have hfpsQ : (0 : ℚ) < (fps : ℚ) := by exact_mod_cast hfps
  have hpos : 0 < ⌈T * (fps : ℚ)⌉ := Int.ceil_pos.mpr (mul_pos hT hfpsQ)
  have hlen := VideoGenerationService.animateTicks_length segments fps (T * (fps : ℚ))
    ((⌈T * (fps : ℚ)⌉).toNat) 0 (by omega) (by omega)
  refine ⟨hlen, ?_, ?_, ?_⟩
  · exact VideoGenerationService.animateTicks_render_lt segments fps (T * (fps : ℚ)) T hseg
      ((⌈T * (fps : ℚ)⌉).toNat) 0 (by omega)
  · intro c hc
    apply VideoGenerationService.animateTicks_last
    intro hlt
    have : T * (fps : ℚ) ≤ ((c + 1 : ℕ) : ℚ) := (le_div_iff hfpsQ).mp hc
    linarith
  · intro hT60 hf
    subst hT60 hf
    rw [hlen]
    norm_num
    decide

/-- C7 witness: the planner's seven segments for the sample input at
`T = 60`, `fps = 30` give exactly 1800 ticks. -/
theorem capture_driver_terminates_witness :
    (VideoGenerationService.animateTicks
        (createTimedVideoSegments sampleFrames sampleVideo sampleSummary5 60)
        30 (60 * ((30 : ℕ) : ℚ)) 0).length = 1800 :=
  (capture_driver_terminates
    (createTimedVideoSegments sampleFrames sampleVideo sampleSummary5 60)
    30 60 (by norm_num) (by norm_num)
    (VideoGenerationService.planner_endTime_le sampleFrames sampleVideo sampleSummary5 60
      (by norm_num))).2.2.2 rfl rfl

/-! ## Claim theorems: Frame Renderer -/

/-- C5 counterexample: the typewriter caret state is NOT a pure function of
`(localTime, segment)`: at the same progress `1/2` over the same text, the
render at wall clock `0` ms draws no caret while the render at wall clock
`500` ms draws one, so the two invocations produce different draw directives
even though the revealed text is identical. -/
theorem frame_determinism_counterexample :
    (AnimationService.renderTypewriterText sampleMeasure "Key Insight 1" 0 0 (1/2) 0).caret
        = none
    ∧ (AnimationService.renderTypewriterText sampleMeasure "Key Insight 1" 0 0 (1/2) 500).caret
        = some (60, -20)
    ∧ (AnimationService.renderTypewriterText sampleMeasure "Key Insight 1" 0 0 (1/2) 0).visibleText
        = (AnimationService.renderTypewriterText sampleMeasure "Key Insight 1" 0 0 (1/2) 500).visibleText
    ∧ AnimationService.renderTypewriterText sampleMeasure "Key Insight 1" 0 0 (1/2) 0
        ≠ AnimationService.renderTypewriterText sampleMeasure "Key Insight 1" 0 0 (1/2) 500 := by
  have h0 : (AnimationService.renderTypewriterText sampleMeasure "Key Insight 1" 0 0
      (1/2) 0).caret = none := by
    simp [AnimationService.renderTypewriterText]
  have h500 : (AnimationService.renderTypewriterText sampleMeasure "Key Insight 1" 0 0
      (1/2) 500).caret = some (60, -20) := by
    simp only [AnimationService.renderTypewriterText, sampleMeasure]
    rw [show ("Key Insight 1".length : ℚ) = 13 from by
      norm_num [show "Key Insight 1".length = 13 from rfl]]
    rw [show ⌊(13 : ℚ) * (1/2)⌋ = 6 from by norm_num [Int.floor_eq_iff]]
    rw [show "Key Insight 1".take (Int.toNat 6) = "Key In" from rfl]
    rw [show ("Key In".length : ℚ) = 6 from by
      norm_num [show "Key In".length = 6 from rfl]]
    norm_num
  refine ⟨h0, h500, rfl, ?_⟩
  intro h
  rw [h, h500] at h0
  exact Option.noConfusion h0

/-- C5 (amended): excluding the glitch and particle effects AND the
typewriter caret, frame rendering is deterministic: the directives of
`renderOriginalContentFrame` — every background decision, overlay alpha,
element opacity, position and scale — and the typewriter's revealed text are
pure functions of `(localTime, segment)`, unchanged under any two wall-clock
readings; only the caret depends on `Date.now()`. -/
theorem frame_determinism_amended :
    (∀ (ofr pre : List String) (measure : String → ℚ) (audioDuration : ℚ)
        (segment : Segment) (previousSegment : Option Segment)
        (segmentTime segmentProgress : ℚ) (aiSummary : VideoSummaryData)
        (w h : ℚ) (now1 now2 : ℕ),
      renderOriginalContentFrame ofr pre measure audioDuration segment previousSegment
          segmentTime segmentProgress aiSummary w h now1
        = renderOriginalContentFrame ofr pre measure audioDuration segment previousSegment
          segmentTime segmentProgress aiSummary w h now2)
    ∧ (∀ (measure : String → ℚ) (text : String) (x y progress : ℚ) (now1 now2 : ℕ),
        (AnimationService.renderTypewriterText measure text x y progress now1).visibleText
          = (AnimationService.renderTypewriterText measure text x y progress now2).visibleText) :=
  ⟨fun _ _ _ _ _ _ _ _ _ _ _ _ _ => rfl, fun _ _ _ _ _ _ _ => rfl⟩

/-- C6 counterexample: the conclusion segment's particle transition directive
has duration `2`, and `localTime = 3/2` lies inside the directive's own
window `[0, 2)`; yet the background renderer does not blend there (it paints
the parallax background), because the code checks the hardcoded
`segmentTime < 1`, not `segmentTime < transition.duration`. -/
theorem background_window_counterexample :
    sampleConclusion.content.transitions.map TransitionEffect.duration = [2]
    ∧ ((3/2 : ℚ) < 2)
    ∧ ((VideoGenerationService.renderOriginalVideoBackground sampleFrames sampleFrames
          sampleConclusion (some samplePrevious) (3/2) (3/4) 1920 1080).1.isBlend
        = false) := by
  refine ⟨rfl, by norm_num, ?_⟩
  simp only [VideoGenerationService.renderOriginalVideoBackground,
    show (some samplePrevious).bind
        (VideoGenerationService.getFrameForSegment sampleFrames sampleFrames)
      = some "f2" from rfl,
    show VideoGenerationService.getFrameForSegment sampleFrames sampleFrames sampleConclusion
      = some "f2" from rfl,
    show sampleConclusion.content.transitions
      = [{ type := .particle, duration := 2, direction := none, easing := "easeOut" }] from rfl]
  norm_num [VideoGenerationService.BackgroundDraw.isBlend]

/-- C6 (amended): the Frame Renderer applies the background transition blend
exactly when `localTime < 1` second (a hardcoded window, not the directive's
own duration) and a previous frame resolves and the segment has a transition
directive; the blend progress passed on is `localTime / transitionDuration`,
and outside that window the current background is painted (parallax, or the
gradient fallback without a frame). -/
theorem background_window_amended :
    ∀ (ofr pre : List String) (segment : Segment) (previousSegment : Option Segment)
      (t p w h : ℚ),
      (((VideoGenerationService.renderOriginalVideoBackground ofr pre segment
            previousSegment t p w h).1.isBlend = true)
        ↔ (t < 1
           ∧ (previousSegment.bind (VideoGenerationService.getFrameForSegment ofr pre)).isSome
           ∧ segment.content.transitions ≠ []))
      ∧ (∀ (trans : TransitionEffect) (rest : List TransitionEffect) (pf : String),
          segment.content.transitions = trans :: rest →
          previousSegment.bind (VideoGenerationService.getFrameForSegment ofr pre) = some pf →
          t < 1 →
          (VideoGenerationService.renderOriginalVideoBackground ofr pre segment
              previousSegment t p w h).1
            = VideoGenerationService.BackgroundDraw.transitionBlend trans
                (t / trans.duration) (some pf)
                (VideoGenerationService.getFrameForSegment ofr pre segment)) := by
  intro ofr pre segment previousSegment t p w h
  constructor
  · simp only [VideoGenerationService.renderOriginalVideoBackground]
    rcases hpf : previousSegment.bind (VideoGenerationService.getFrameForSegment ofr pre)
        with _ | pf <;>
      rcases htr : segment.content.transitions with _ | ⟨trans, rest⟩ <;>
      by_cases ht : t < 1 <;>
      rcases hcf : VideoGenerationService.getFrameForSegment ofr pre segment with _ | cf <;>
      simp [hpf, htr, ht, hcf, VideoGenerationService.BackgroundDraw.isBlend]
  · intro trans rest pf htr hpf ht
    simp only [VideoGenerationService.renderOriginalVideoBackground, htr, hpf]
    rw [if_pos ht]

/-! ## Claim theorems: transitions and easings -/

/-- C8 counterexample: `AnimationService.renderZoomTransition` contradicts
the claimed scales: at eased progress `1` it draws the previous image at
scale `1 - 1·0.5 = 1/2`, not the claimed `1 + 0.2·1 = 1.2`, and at eased
progress `0` it draws the current image at scale `0.5 + 0·0.5 = 1/2`, not the
claimed `0.8 + 0.2·0 = 0.8`. -/
theorem zoom_transition_counterexample :
    ((AnimationService.renderZoomTransition (some "f0") (some "f1") 1
        ⟨0, 0, 1920, 1080⟩).head?.map ImageDraw.scale = some (1/2))
    ∧ ((1 : ℚ)/2 ≠ 1 + 0.2 * 1)
    ∧ (((AnimationService.renderZoomTransition (some "f0") (some "f1") 0
        ⟨0, 0, 1920, 1080⟩).get? 1).map ImageDraw.scale = some (1/2))
    ∧ ((1 : ℚ)/2 ≠ 0.8 + 0.2 * 0) := by
  refine ⟨?_, by norm_num, ?_, by norm_num⟩
  · simp only [AnimationService.renderZoomTransition]
    norm_num
  · simp only [AnimationService.renderZoomTransition]
    norm_num

/-- C8 (amended): the zoom of `VideoGenerationService.createImageTransition`
does behave as claimed — previous image at scale `1 + 0.2·p` with opacity
`1 - p` and current image at scale `0.8 + 0.2·p` with opacity `p` (for
`p = easeInOut progress`), both pivoted on the canvas centre — while
`AnimationService.renderZoomTransition` instead scales the previous image
down `1 → 0.5` (`1 - 0.5·p`) and the current one up `0.5 → 1`
(`0.5 + 0.5·p`). -/
theorem zoom_transition_amended :
    (∀ (fromImg toImg : String) (trans : TransitionEffect) (p : ℚ) (bounds : Bounds),
      trans.type = TransitionType.zoom →
      VideoGenerationService.createImageTransition (some fromImg) (some toImg) trans p bounds
        = [{ image := fromImg, alpha := 1 - VideoGenerationService.easeInOut p,
             scale := 1 + VideoGenerationService.easeInOut p * 0.2,
             tx := bounds.x + bounds.width / 2, ty := bounds.y + bounds.height / 2,
             tx2 := -(bounds.width / 2), ty2 := -(bounds.height / 2),
             x := 0, y := 0, width := bounds.width, height := bounds.height },
           { image := toImg, alpha := VideoGenerationService.easeInOut p,
             scale := 0.8 + VideoGenerationService.easeInOut p * 0.2,
             tx := bounds.x + bounds.width / 2, ty := bounds.y + bounds.height / 2,
             tx2 := -(bounds.width / 2), ty2 := -(bounds.height / 2),
             x := 0, y := 0, width := bounds.width, height := bounds.height }])
    ∧ (∀ (fromImg toImg : String) (p : ℚ) (bounds : Bounds),
        AnimationService.renderZoomTransition (some fromImg) (some toImg) p bounds
          = [{ image := fromImg, alpha := 1 - p, scale := 1 - p * 0.5,
               tx := bounds.x + bounds.width / 2, ty := bounds.y + bounds.height / 2,
               tx2 := -(bounds.x + bounds.width / 2), ty2 := -(bounds.y + bounds.height / 2),
               x := bounds.x, y := bounds.y, width := bounds.width, height := bounds.height },
             { image := toImg, alpha := p, scale := 0.5 + p * 0.5,
               tx := bounds.x + bounds.width / 2, ty := bounds.y + bounds.height / 2,
               tx2 := -(bounds.x + bounds.width / 2), ty2 := -(bounds.y + bounds.height / 2),
               x := bounds.x, y := bounds.y, width := bounds.width,
               height := bounds.height }]) := by
  constructor
  · intro fromImg toImg trans p bounds htype
    simp only [VideoGenerationService.createImageTransition, htype]
    rfl
  · intro fromImg toImg p bounds
    rfl

/-- C9: each of the six easing functions maps `0` to `0` and `1` to `1`
(elastic by its explicit special cases for exactly `0` and `1`). -/
theorem easing_boundary_laws :
    AnimationService.linear 0 = 0 ∧ AnimationService.linear 1 = 1
    ∧ AnimationService.easeIn 0 = 0 ∧ AnimationService.easeIn 1 = 1
    ∧ AnimationService.easeOut 0 = 0 ∧ AnimationService.easeOut 1 = 1
    ∧ AnimationService.easeInOut 0 = 0 ∧ AnimationService.easeInOut 1 = 1
    ∧ AnimationService.bounce 0 = 0 ∧ AnimationService.bounce 1 = 1
    ∧ AnimationService.elastic 0 = 0 ∧ AnimationService.elastic 1 = 1 := by
  refine ⟨rfl, rfl, by norm_num [AnimationService.easeIn],
    by norm_num [AnimationService.easeIn],
    by norm_num [AnimationService.easeOut], by norm_num [AnimationService.easeOut],
    by norm_num [AnimationService.easeInOut], by norm_num [AnimationService.easeInOut],
    by norm_num [AnimationService.bounce], by norm_num [AnimationService.bounce],
    by norm_num [AnimationService.elastic], by norm_num [AnimationService.elastic]⟩

/-- C10: the two independently written `easeInOut` implementations — the
private one of `VideoGenerationService` and the one in
`AnimationService.easingFunctions` — are extensionally equal: both compute
`t < 0.5 ? 2t² : 1 - (-2t + 2)²/2`. -/
theorem easeInOut_implementations_agree :
    ∀ t : ℚ, VideoGenerationService.easeInOut t = AnimationService.easeInOut t :=
  fun _ => rfl
